import Mathlib

/-!
Verification development for the Codexola backend (src/src-tauri/src/lib.rs).

The development shallowly embeds the pure cores of the subprocess session
manager (request correlation, event routing) and the usage ledger
(token points, pruning, rate-limit snapshots), together with small state
machines for the stateful parts (session teardown, poller restart,
workspace add and remove).  Machine integers (Rust i64 u64) are modelled
as Int and Nat; the only place the source relies on overflow behavior is
saturating_sub in cutoff_ms, which is modelled explicitly.  JSON numbers
are modelled as integers: every payload the verified claims touch is
integral, and serde_json as_i64 and as_u64 are embedded with their
i64 and u64 range checks.
-/

/-- Shallow embedding of serde_json Value.  Numbers are modelled as
integers (see the module comment); objects are association lists, as the
parsed documents here never repeat keys. -/
inductive Json where
  | null
  | bool (b : Bool)
  | num (n : Int)
  | str (s : String)
  | arr (elems : List Json)
  | obj (fields : List (String × Json))

/-- Value.get on an object: first binding for the key, none otherwise. -/
def Json.get : Json → String → Option Json
  | .obj fields, key => fields.lookup key
  | _, _ => none

/-- serde_json Value.as_i64: integral numbers in i64 range. -/
def Json.as_i64 : Json → Option Int
  | .num n => if -(2 ^ 63) ≤ n ∧ n < 2 ^ 63 then some n else none
  | _ => none

/-- serde_json Value.as_u64: integral numbers in u64 range, as Nat. -/
def Json.as_u64 : Json → Option Nat
  | .num n => if 0 ≤ n ∧ n < 2 ^ 64 then some n.toNat else none
  | _ => none

/-- serde_json Value.as_str. -/
def Json.as_str : Json → Option String
  | .str s => some s
  | _ => none

/-- Value.is_some style presence test used by the router. -/
def Json.getIsSome (v : Json) (key : String) : Bool :=
  (v.get key).isSome

/- Rate-limit model (struct RateLimitWindow, struct RateLimitSnapshot). -/

structure RateLimitWindow where
  used_percent : Int
  window_duration_mins : Option Int
  resets_at : Option Int
deriving Repr, DecidableEq

structure RateLimitSnapshot where
  primary : Option RateLimitWindow
  secondary : Option RateLimitWindow
deriving Repr, DecidableEq

/-- fn parse_used_percent: as_i64 first; the as_f64 rounding fallback is
outside the integral JSON model (it only fires on non-integral numbers). -/
def parse_used_percent (value : Json) : Option Int :=
  value.as_i64

/-- fn parse_rate_limit_window. -/
def parse_rate_limit_window (value : Json) : Option RateLimitWindow :=
  match ((value.get "usedPercent").or (value.get "used_percent")).bind
      parse_used_percent with
  | none => none
  | some used_percent =>
      let window_duration_mins :=
        ((value.get "windowDurationMins").or
          (value.get "window_duration_mins")).bind Json.as_i64
      let resets_at :=
        ((value.get "resetsAt").or (value.get "resets_at")).bind Json.as_i64
      some { used_percent := used_percent,
             window_duration_mins := window_duration_mins,
             resets_at := resets_at }

/-- fn parse_rate_limits_from_container. -/
def parse_rate_limits_from_container (container : Json) :
    Option RateLimitSnapshot :=
  match (container.get "rateLimits").or (container.get "rate_limits") with
  | none => none
  | some rate_limits =>
      some { primary := (rate_limits.get "primary").bind parse_rate_limit_window,
             secondary :=
               (rate_limits.get "secondary").bind parse_rate_limit_window }

/- Usage ledger model (struct UsagePoint, UsageSnapshot, UsageStore). -/

structure UsagePoint where
  timestamp_ms : Int
  tokens : Int
deriving Repr, DecidableEq

inductive UsageSource where
  | none
  | appServer
  | sessions
deriving Repr, DecidableEq

structure UsageSnapshot where
  total_tokens_24h : Option Int
  updated_at_ms : Option Int
  source : UsageSource
  rate_limits : Option RateLimitSnapshot
deriving Repr, DecidableEq

structure UsageStore where
  app_server_points : List UsagePoint
  last_snapshot : Option UsageSnapshot
  last_rate_limits : Option RateLimitSnapshot
deriving Repr, DecidableEq

def UsageStore.default : UsageStore :=
  { app_server_points := [], last_snapshot := none, last_rate_limits := none }

def i64Min : Int := -(2 ^ 63)

def i64Max : Int := 2 ^ 63 - 1

/-- i64::saturating_sub. -/
def i64SaturatingSub (a b : Int) : Int :=
  max i64Min (min i64Max (a - b))

/-- fn cutoff_ms: now.saturating_sub(24 * 60 * 60 * 1000). -/
def cutoff_ms (now : Int) : Int :=
  i64SaturatingSub now (24 * 60 * 60 * 1000)

/-- fn prune_points: retain points with timestamp_ms >= cutoff. -/
def prune_points (points : List UsagePoint) (cutoff : Int) : List UsagePoint :=
  points.filter (fun point => cutoff ≤ point.timestamp_ms)

/-- fn sum_points. -/
def sum_points (points : List UsagePoint) : Int :=
  (points.map (fun point => point.tokens)).sum

/-- fn empty_usage_snapshot. -/
def empty_usage_snapshot : UsageSnapshot :=
  { total_tokens_24h := none, updated_at_ms := none,
    source := .none, rate_limits := none }

/-- fn record_app_server_usage, pure core: the mutation of the usage store
under its lock and the snapshot that is persisted and emitted.  Disk
persistence and the tauri emit are I/O outside the model. -/
def record_app_server_usage (store : UsageStore) (now : Int) (tokens : Int) :
    UsageStore × UsageSnapshot :=
  let cutoff := cutoff_ms now
  let points := prune_points
    (store.app_server_points ++ [{ timestamp_ms := now, tokens := tokens }])
    cutoff
  let total := sum_points points
  let snapshot : UsageSnapshot :=
    { total_tokens_24h := some total,
      updated_at_ms := some now,
      source := .appServer,
      rate_limits := store.last_rate_limits }
  ({ app_server_points := points,
     last_snapshot := some snapshot,
     last_rate_limits := store.last_rate_limits }, snapshot)

/-- fn record_rate_limits, pure core: prune, replace the stored rate-limit
snapshot wholesale, recompute the total from remaining points or fall back
to the previous snapshots total, publish. -/
def record_rate_limits (store : UsageStore) (now : Int)
    (rate_limits : RateLimitSnapshot) : UsageStore × UsageSnapshot :=
  let cutoff := cutoff_ms now
  let points := prune_points store.app_server_points cutoff
  let total_tokens_24h :=
    if points.isEmpty then
      store.last_snapshot.bind (fun snapshot => snapshot.total_tokens_24h)
    else
      some (sum_points points)
  let snapshot : UsageSnapshot :=
    { total_tokens_24h := total_tokens_24h,
      updated_at_ms := some now,
      source := .appServer,
      rate_limits := some rate_limits }
  ({ app_server_points := points,
     last_snapshot := some snapshot,
     last_rate_limits := some rate_limits }, snapshot)

/-- fn extract_app_server_token_delta. -/
def extract_app_server_token_delta (message : Json) : Option Int :=
  match message.get "params" with
  | none => none
  | some params =>
    match (params.get "tokenUsage").or (params.get "token_usage") with
    | none => none
    | some token_usage =>
      match (token_usage.get "last").or (token_usage.get "last_usage") with
      | none => none
      | some last_usage =>
        match ((last_usage.get "totalTokens").or
            (last_usage.get "total_tokens")).bind Json.as_i64 with
        | none => none
        | some total_tokens =>
            if total_tokens > 0 then some total_tokens else none

/- Session and correlation table model (struct WorkspaceSession).

The pending map (HashMap from u64 to a oneshot sender) is modelled as an
association list from id to a slot state.  An entry present in the real
map corresponds to a waiting slot; removing the entry and sending on the
oneshot corresponds to marking the slot fulfilled; dropping the sender
(which makes the suspended rx.await in send_request fail, and which
send_request maps to the error string "request canceled") corresponds to
marking the slot canceled.  Slots are kept in the list after resolution
so that the fate of every issued request can be stated. -/

inductive SlotState where
  | waiting
  | fulfilled (response : Json)
  | canceled

def SlotState.isWaiting : SlotState → Bool
  | .waiting => true
  | _ => false

structure SessionSt where
  next_id : Nat
  pending : List (Nat × SlotState)

/-- A fresh WorkspaceSession: pending empty, next_id = AtomicU64::new(1). -/
def initial_session : SessionSt :=
  { next_id := 1, pending := [] }

/-- The id-allocation and registration half of send_request:
fetch_add on next_id returns the previous value, and a waiting slot for
that id is inserted into the pending map. -/
def send_request_issue (s : SessionSt) : SessionSt × Nat :=
  ({ next_id := s.next_id + 1,
     pending := s.pending ++ [(s.next_id, SlotState.waiting)] }, s.next_id)

/-- Issue n requests in sequence, returning the ids in issuance order. -/
def issue_many : SessionSt → Nat → SessionSt × List Nat
  | s, 0 => (s, [])
  | s, n + 1 =>
      let p := send_request_issue s
      let q := issue_many p.1 n
      (q.1, p.2 :: q.2)

/-- The result the suspended send_request caller observes for a slot:
Except.ok for a routed response (rx.await returns it), the
"request canceled" error for a dropped sender, and none while the call is
still suspended or the id was never issued. -/
def request_outcome (s : SessionSt) (id : Nat) : Option (Except String Json) :=
  match s.pending.lookup id with
  | some (.fulfilled v) => some (Except.ok v)
  | some .canceled => some (Except.error "request canceled")
  | some .waiting => none
  | none => none

/-- Mark the slot for id with a new state, leaving other slots unchanged. -/
def mark_slot (pending : List (Nat × SlotState)) (id : Nat)
    (st : SlotState) : List (Nat × SlotState) :=
  pending.map (fun p => if p.1 = id then (p.1, st) else p)

/-- pending.lock().remove(&id) followed by tx.send(value): if the map holds
a (necessarily waiting) entry for id it is fulfilled with the whole inbound
message; otherwise the message is dropped silently. -/
def route_response (s : SessionSt) (id : Nat) (value : Json) : SessionSt :=
  match s.pending.lookup id with
  | some .waiting =>
      { s with pending := mark_slot s.pending id (.fulfilled value) }
  | _ => s

/- Event router model (the stdout reader task in spawn_workspace_session). -/

/-- One observable action of the stdout reader task. -/
inductive RouteAction where
  | recordUsage (tokens : Int)
  | recordRateLimits (snapshot : RateLimitSnapshot)
  | fulfill (id : Nat) (value : Json)
  | dropStale (id : Nat)
  | forwardEvent (value : Json)
  | emitParseError (event : Json)

/-- maybe_id: value.get("id").and_then(as_u64). -/
def inbound_id (value : Json) : Option Nat :=
  (value.get "id").bind Json.as_u64

/-- has_method: value.get("method").is_some(). -/
def has_method (value : Json) : Bool :=
  value.getIsSome "method"

/-- has_result_or_error. -/
def has_result_or_error (value : Json) : Bool :=
  value.getIsSome "result" || value.getIsSome "error"

/-- method_name: value.get("method").and_then(as_str).unwrap_or(""). -/
def method_name (value : Json) : String :=
  ((value.get "method").bind Json.as_str).getD ""

/-- The token-usage side effect taken before classification. -/
def usage_side_effects (value : Json) : List RouteAction :=
  (if method_name value = "thread/tokenUsage/updated" then
     match extract_app_server_token_delta value with
     | some tokens => [RouteAction.recordUsage tokens]
     | none => []
   else []) ++
  (if method_name value = "account/rateLimits/updated" then
     match value.get "params" with
     | some params =>
       match parse_rate_limits_from_container params with
       | some rate_limits => [RouteAction.recordRateLimits rate_limits]
       | none => []
     | none => []
   else [])

/-- The classification branch of the reader for one parsed value: fulfill
or silently drop a response, forward a server-initiated call or a
notification as an app-server-event. -/
def classify_value (s : SessionSt) (value : Json) :
    SessionSt × List RouteAction :=
  match inbound_id value with
  | some id =>
      if has_result_or_error value then
        match s.pending.lookup id with
        | some .waiting =>
            ({ s with pending := mark_slot s.pending id (.fulfilled value) },
             [RouteAction.fulfill id value])
        | _ => (s, [RouteAction.dropStale id])
      else if has_method value then
        (s, [RouteAction.forwardEvent value])
      else
        match s.pending.lookup id with
        | some .waiting =>
            ({ s with pending := mark_slot s.pending id (.fulfilled value) },
             [RouteAction.fulfill id value])
        | _ => (s, [RouteAction.dropStale id])
  | none =>
      if has_method value then (s, [RouteAction.forwardEvent value])
      else (s, [])

/-- Processing of one successfully parsed line: side effects for the two
recognized methods, then classification. -/
def process_value (s : SessionSt) (value : Json) :
    SessionSt × List RouteAction :=
  let c := classify_value s value
  (c.1, usage_side_effects value ++ c.2)

/-- The synthetic diagnostic event emitted for an unparsable line. -/
def parse_error_event (raw : String) (err : String) : Json :=
  .obj [("method", .str "codex/parseError"),
        ("params", .obj [("error", .str err), ("raw", .str raw)])]

/-- One inbound line, represented by its parse outcome (serde_json is
external to the model): blank carries a line whose trim is empty, ok a
parsed value, failed the raw line and the parse error text. -/
inductive InLine where
  | blank (raw : String)
  | ok (value : Json)
  | failed (raw : String) (err : String)

/-- The body of the stdout reader loop for one line. -/
def process_line (s : SessionSt) (l : InLine) : SessionSt × List RouteAction :=
  match l with
  | .blank _ => (s, [])
  | .failed raw err => (s, [RouteAction.emitParseError (parse_error_event raw err)])
  | .ok value => process_value s value

/-- The stdout reader loop run to end of stream.  At EOF the task simply
returns: no action touches the pending map and the session stays in the
registry, which is what the teardown claims are about. -/
def run_reader (s : SessionSt) : List InLine → SessionSt × List RouteAction
  | [] => (s, [])
  | l :: rest =>
      let p := process_line s l
      let q := run_reader p.1 rest
      (q.1, p.2 ++ q.2)

/- Usage poller model (fn restart_usage_polling). -/

/-- The settings fields restart_usage_polling reads. -/
structure PollSettings where
  usage_polling_enabled : Bool
  usage_polling_interval_minutes : Int
deriving Repr, DecidableEq

/-- interval_minutes.max(1).min(120). -/
def clamp_interval_minutes (n : Int) : Int :=
  min (max n 1) 120

/-- Process-wide poller state: the set of live periodic tasks (by spawn
order number) and the stored usage_poll_handle.  tokio::spawn returns a
handle for a fresh task; JoinHandle::abort removes the task from the live
set. -/
structure PollerCtx where
  live_tasks : List Nat
  handle : Option Nat
  fresh : Nat
deriving Repr, DecidableEq

/-- fn restart_usage_polling: take and abort the stored handle, return if
polling is disabled, otherwise spawn a new periodic task with the clamped
interval and store its handle. -/
def restart_usage_polling (st : PollerCtx) (settings : PollSettings) :
    PollerCtx :=
  let live :=
    match st.handle with
    | some h => st.live_tasks.filter (fun t => t ≠ h)
    | none => st.live_tasks
  if settings.usage_polling_enabled then
    { live_tasks := live ++ [st.fresh],
      handle := some st.fresh,
      fresh := st.fresh + 1 }
  else
    { live_tasks := live, handle := none, fresh := st.fresh }

/-- The spawned poller task body: one refresh before the loop, then one
refresh per tick of the interval timer.  Counts refreshes after the given
number of elapsed ticks. -/
def poller_refreshes_after (ticks : Nat) : Nat :=
  1 + ticks

/-- The poller state invariant: the live periodic tasks are exactly the
one the stored handle names, and every live task predates the next fresh
task number.  It holds at startup (no tasks) and is preserved by every
restart. -/
def poller_inv (st : PollerCtx) : Prop :=
  st.live_tasks = st.handle.toList ∧ ∀ t ∈ st.live_tasks, t < st.fresh

/- Workspace registry model (fn add_workspace, fn remove_workspace).

Sessions are identified by number; the in-memory workspace map, the
persisted workspace list (workspaces.json) and the session registry are
the three state components the atomicity claim names.  Uuid generation,
path basename extraction and the spawn itself are external, so the entry
and the spawn outcome are inputs. -/

structure WorkspaceEntry where
  id : String
  name : String
  path : String
  codex_bin : Option String
deriving Repr, DecidableEq

structure WorkspaceInfo where
  id : String
  name : String
  path : String
  connected : Bool
  codex_bin : Option String
deriving Repr, DecidableEq

structure RegistrySt where
  workspaces : List (String × WorkspaceEntry)
  persisted_list : List WorkspaceEntry
  sessions : List (String × SessionSt)

/-- Map insert modelled on association lists: replace or append. -/
def assoc_insert {α : Type} (l : List (String × α)) (k : String) (v : α) :
    List (String × α) :=
  if (l.lookup k).isSome then
    l.map (fun p => if p.1 = k then (k, v) else p)
  else
    l ++ [(k, v)]

/-- Map remove modelled on association lists. -/
def assoc_remove {α : Type} (l : List (String × α)) (k : String) :
    List (String × α) :=
  l.filter (fun p => p.1 ≠ k)

/-- fn add_workspace: spawn the session first (the question mark operator
returns the spawn or bootstrap error before any state is touched), then
insert the entry into the workspace map, rewrite the persisted list from
the map values, insert the session into the registry. -/
def add_workspace (st : RegistrySt) (entry : WorkspaceEntry)
    (spawn_result : Except String SessionSt) :
    RegistrySt × Except String WorkspaceInfo :=
  match spawn_result with
  | .error e => (st, .error e)
  | .ok session =>
      let workspaces := assoc_insert st.workspaces entry.id entry
      let persisted := workspaces.map (fun p => p.2)
      let sessions := assoc_insert st.sessions entry.id session
      ({ workspaces := workspaces,
         persisted_list := persisted,
         sessions := sessions },
       .ok { id := entry.id, name := entry.name, path := entry.path,
             connected := true, codex_bin := entry.codex_bin })

/-- fn remove_workspace: drop the entry from the workspace map, rewrite the
persisted list, remove the session from the registry and kill its child.
No code path resolves the outstanding Correlation Table entries of the
removed session: a suspended send_request borrows the WorkspaceSession and
so keeps it (and its pending oneshot senders) alive — command callers even
hold the sessions MutexGuard across the await, blocking this removal — so
the waiting slots are not failed here. -/
def remove_workspace (st : RegistrySt) (id : String) : RegistrySt :=
  let workspaces := assoc_remove st.workspaces id
  { workspaces := workspaces,
    persisted_list := workspaces.map (fun p => p.2),
    sessions := assoc_remove st.sessions id }

/-- Unexpected child exit: stdout reaches EOF, the reader loop simply ends.
Nothing removes the session from the registry and nothing drains the
pending map, so the registry state after the event is unchanged. -/
def child_exit_registry (st : RegistrySt) : RegistrySt :=
  st

/-- A thread/tokenUsage/updated notification whose last-delta token count
is d, shaped as the app server sends it. -/
def token_usage_msg (d : Int) : Json :=
  .obj [("method", .str "thread/tokenUsage/updated"),
        ("params", .obj [("tokenUsage",
          .obj [("last", .obj [("totalTokens", .num d)])])])]

/-- The ledger updates performed by the reader for a sequence of
token-usage notifications carrying the given deltas, all observed at the
same instant: exactly what lines 1195-1199 of the source do per message. -/
def record_usage_deltas (store : UsageStore) (now : Int) (deltas : List Int) :
    UsageStore :=
  deltas.foldl
    (fun st d =>
      match extract_app_server_token_delta (token_usage_msg d) with
      | some tokens => (record_app_server_usage st now tokens).1
      | none => st)
    store

/- Helper lemmas shared by the claim theorems. -/

theorem lookup_mark_slot_self (pending : List (Nat × SlotState)) (id : Nat)
    (st : SlotState) (h : (pending.lookup id).isSome) :
    (mark_slot pending id st).lookup id = some st := by
  induction pending with
  | nil => simp [List.lookup] at h
  | cons p rest ih =>
      obtain ⟨k, b⟩ := p
      simp only [mark_slot, List.map_cons] at *
      by_cases hk : id = k
      · subst hk
        rw [if_pos rfl]
        simp [List.lookup_cons]
      · rw [if_neg (fun hh : k = id => hk hh.symm)]
        have hbeq : (id == k) = false := beq_eq_false_iff_ne.mpr hk
        simp only [List.lookup_cons, hbeq] at h ⊢
        exact ih h

theorem lookup_mark_slot_ne (pending : List (Nat × SlotState)) (id j : Nat)
    (st : SlotState) (h : j ≠ id) :
    (mark_slot pending id st).lookup j = pending.lookup j := by
  induction pending with
  | nil => simp [mark_slot]
  | cons p rest ih =>
      obtain ⟨k, b⟩ := p
      simp only [mark_slot, List.map_cons] at *
      by_cases hk : k = id
      · subst hk
        rw [if_pos rfl]
        have hbeq : (j == k) = false := beq_eq_false_iff_ne.mpr h
        simp only [List.lookup_cons, hbeq]
        exact ih
      · rw [if_neg hk]
        by_cases hj : j = k
        · subst hj
          simp [List.lookup_cons]
        · have hbeq : (j == k) = false := beq_eq_false_iff_ne.mpr hj
          simp only [List.lookup_cons, hbeq]
          exact ih

/-- C10: when spawning the session fails (process spawn error or failure of
the initialize or initialized bootstrap, both of which surface as the error
result of spawn_workspace_session), add_workspace returns that error and
leaves the in-memory workspace map, the persisted workspace list and the
session registry unchanged: the question mark operator returns before any
of the three is touched. -/
theorem add_workspace_spawn_failure_atomic (st : RegistrySt)
    (entry : WorkspaceEntry) (e : String) :
    (add_workspace st entry (.error e)).1.workspaces = st.workspaces ∧
    (add_workspace st entry (.error e)).1.persisted_list = st.persisted_list ∧
    (add_workspace st entry (.error e)).1.sessions = st.sessions ∧
    (add_workspace st entry (.error e)).2 = .error e :=
  ⟨rfl, rfl, rfl, rfl⟩

/-- C1: the claim fails on the code.  Failing input: one registered
session with one outstanding send_request (id 1) whose child process
exits.  The stdout reader reaches end of stream and simply returns;
nothing removes the session from the registry or touches the pending
map, so the session stays registered with its slot still waiting and the
suspended call never resolves: request_outcome stays none, not the
claimed "request canceled" error.  (Explicit removal fares no better
while a request is outstanding: every suspended send_request caller pins
the WorkspaceSession alive, so its pending senders are never dropped;
remove_workspace above deregisters and kills without resolving slots.)  -/
theorem child_exit_leaves_requests_pending :
    run_reader ⟨2, [(1, SlotState.waiting)]⟩ [] =
      (⟨2, [(1, SlotState.waiting)]⟩, []) ∧
    child_exit_registry
        ⟨[("w", ⟨"w", "w", "/w", none⟩)], [⟨"w", "w", "/w", none⟩],
          [("w", ⟨2, [(1, SlotState.waiting)]⟩)]⟩ =
      ⟨[("w", ⟨"w", "w", "/w", none⟩)], [⟨"w", "w", "/w", none⟩],
        [("w", ⟨2, [(1, SlotState.waiting)]⟩)]⟩ ∧
    (child_exit_registry
        ⟨[("w", ⟨"w", "w", "/w", none⟩)], [⟨"w", "w", "/w", none⟩],
          [("w", ⟨2, [(1, SlotState.waiting)]⟩)]⟩).sessions.lookup "w" =
      some ⟨2, [(1, SlotState.waiting)]⟩ ∧
    request_outcome ⟨2, [(1, SlotState.waiting)]⟩ 1 = none :=
  ⟨rfl, rfl, rfl, rfl⟩

/-- C9 counterexample: parse_used_percent performs no range check, so an
inbound payload with usedPercent 150 parses to a Rate-Limit Window whose
used-percent is 150, outside 0 to 100. -/
theorem used_percent_range_counterexample :
    parse_rate_limit_window (Json.obj [("usedPercent", Json.num 150)]) =
      some ⟨150, none, none⟩ ∧
    decide ((150 : Int) ≤ 100) = false := by
  constructor
  · rfl
  · rfl

/-- C9 amended: every Rate-Limit Window produced by parsing carries as its
used-percent exactly the integer parsed from the payloads usedPercent or
used_percent field, with no clamping or range restriction to 0 to 100. -/
theorem parse_rate_limit_window_used_percent (value : Json)
    (w : RateLimitWindow) (h : parse_rate_limit_window value = some w) :
    ((value.get "usedPercent").or (value.get "used_percent")).bind
      parse_used_percent = some w.used_percent := by
  unfold parse_rate_limit_window at h
  rcases heq : ((value.get "usedPercent").or (value.get "used_percent")).bind
      parse_used_percent with _ | u
  · rw [heq] at h
    exact absurd h (by simp)
  · rw [heq] at h
    simp only [Option.some.injEq] at h
    rw [← h]

/-- C9 amended witness at the counterexample input. -/
theorem parse_rate_limit_window_used_percent_witness :
    (((Json.obj [("usedPercent", Json.num 150)]).get "usedPercent").or
        ((Json.obj [("usedPercent", Json.num 150)]).get "used_percent")).bind
      parse_used_percent = some (150 : Int) :=
  parse_rate_limit_window_used_percent
    (Json.obj [("usedPercent", Json.num 150)]) ⟨150, none, none⟩ rfl

/-- C7 counterexample: the synthetic diagnostic event emitted for an
unparsable line carries the method string codex/parseError, not the
claimed string parse-error. -/
theorem parse_error_method_counterexample :
    (process_line ⟨1, []⟩ (InLine.failed "not json" "expected value")).2 =
      [RouteAction.emitParseError (parse_error_event "not json"
        "expected value")] ∧
    method_name (parse_error_event "not json" "expected value") =
      "codex/parseError" ∧
    decide (method_name (parse_error_event "not json" "expected value") =
      "parse-error") = false := by
  refine ⟨rfl, rfl, ?_⟩
  decide

/-- C7 amended: for every inbound line that fails to parse as JSON, the
reader emits exactly one synthetic diagnostic event whose method is
codex/parseError and whose payload carries the raw line and the error
text, the correlation state is untouched, and the stream is not
terminated: the remaining lines are processed from the same state exactly
as they would have been. -/
theorem parse_error_line_not_fatal (s : SessionSt) (raw err : String)
    (rest : List InLine) :
    process_line s (InLine.failed raw err) =
      (s, [RouteAction.emitParseError (parse_error_event raw err)]) ∧
    (parse_error_event raw err).get "method" =
      some (Json.str "codex/parseError") ∧
    ((parse_error_event raw err).get "params").bind (fun p => p.get "raw") =
      some (Json.str raw) ∧
    ((parse_error_event raw err).get "params").bind (fun p => p.get "error") =
      some (Json.str err) ∧
    run_reader s (InLine.failed raw err :: rest) =
      ((run_reader s rest).1,
        RouteAction.emitParseError (parse_error_event raw err) ::
          (run_reader s rest).2) :=
  ⟨rfl, rfl, rfl, rfl, rfl⟩

/-- C5: record_rate_limits replaces the stored rate-limit snapshot
wholesale (the published snapshot carries exactly the new value, no field
merge: after recording a primary-only snapshot and then a secondary-only
snapshot, the store holds the secondary-only snapshot with no primary),
and the published total is recomputed from the non-pruned points when any
exist, otherwise the previous snapshots total is retained. -/
theorem record_rate_limits_replaces_wholesale :
    (∀ store now s,
      (record_rate_limits store now s).1.last_rate_limits = some s ∧
      (record_rate_limits store now s).2.rate_limits = some s) ∧
    (∀ store now s,
      prune_points store.app_server_points (cutoff_ms now) ≠ [] →
      (record_rate_limits store now s).2.total_tokens_24h =
        some (sum_points
          (prune_points store.app_server_points (cutoff_ms now)))) ∧
    (∀ store now s,
      prune_points store.app_server_points (cutoff_ms now) = [] →
      (record_rate_limits store now s).2.total_tokens_24h =
        store.last_snapshot.bind (fun sn => sn.total_tokens_24h)) ∧
    (∀ now1 now2 : Int,
      (record_rate_limits
          (record_rate_limits UsageStore.default now1
            ⟨some ⟨10, none, none⟩, none⟩).1 now2
          ⟨none, some ⟨20, none, none⟩⟩).1.last_rate_limits =
        some ⟨none, some ⟨20, none, none⟩⟩ ∧
      (record_rate_limits
          (record_rate_limits UsageStore.default now1
            ⟨some ⟨10, none, none⟩, none⟩).1 now2
          ⟨none, some ⟨20, none, none⟩⟩).2.rate_limits =
        some ⟨none, some ⟨20, none, none⟩⟩) := by
  refine ⟨fun store now s => ⟨rfl, rfl⟩, ?_, ?_, fun now1 now2 => ⟨rfl, rfl⟩⟩
  · intro store now s h
    simp [record_rate_limits, List.isEmpty_iff, h]
  · intro store now s h
    simp [record_rate_limits, List.isEmpty_iff, h]

/-- C5 witness: one retained point keeps its sum as the total; with no
points the previous total survives a snapshot replacement. -/
theorem record_rate_limits_replaces_wholesale_witness :
    (record_rate_limits ⟨[⟨50, 7⟩], none, none⟩ 50
        ⟨none, some ⟨20, none, none⟩⟩).2.total_tokens_24h = some 7 ∧
    (record_rate_limits ⟨[], some ⟨some 9, none, .appServer, none⟩, none⟩ 50
        ⟨none, some ⟨20, none, none⟩⟩).2.total_tokens_24h = some 9 := by
  constructor
  · have h := (record_rate_limits_replaces_wholesale.2.1
      ⟨[⟨50, 7⟩], none, none⟩ 50 ⟨none, some ⟨20, none, none⟩⟩ (by decide))
    simpa using h
  · have h := (record_rate_limits_replaces_wholesale.2.2.1
      ⟨[], some ⟨some 9, none, .appServer, none⟩, none⟩ 50
      ⟨none, some ⟨20, none, none⟩⟩ (by decide))
    simpa using h

/-- C3: record_app_server_usage appends the Usage Point (now, tokens),
removes exactly the stored points more than 24 hours behind now, publishes
a total equal to the sum of the retained points, and stores the published
snapshot; recording a sample and a second sample 25 hours later prunes the
first, leaving a total equal to only the second samples tokens.  The two
range hypotheses say now is an i64 value whose 24-hour cutoff does not
saturate. -/
theorem record_app_server_usage_correct (store : UsageStore)
    (now tokens : Int) (h1 : i64Min + 24 * 60 * 60 * 1000 ≤ now)
    (h2 : now ≤ i64Max) :
    (⟨now, tokens⟩ : UsagePoint) ∈
      (record_app_server_usage store now tokens).1.app_server_points ∧
    (∀ p : UsagePoint,
      p ∈ store.app_server_points ++ [⟨now, tokens⟩] →
      (p ∈ (record_app_server_usage store now tokens).1.app_server_points ↔
        ¬ p.timestamp_ms < now - 24 * 60 * 60 * 1000)) ∧
    (record_app_server_usage store now tokens).2.total_tokens_24h =
      some (sum_points
        (record_app_server_usage store now tokens).1.app_server_points) ∧
    (record_app_server_usage store now tokens).1.last_snapshot =
      some (record_app_server_usage store now tokens).2 ∧
    (∀ t1 t2 : Int,
      (record_app_server_usage
          (record_app_server_usage UsageStore.default 1000000000000 t1).1
          (1000000000000 + 25 * 60 * 60 * 1000) t2).1.app_server_points =
        [⟨1000000000000 + 25 * 60 * 60 * 1000, t2⟩] ∧
      (record_app_server_usage
          (record_app_server_usage UsageStore.default 1000000000000 t1).1
          (1000000000000 + 25 * 60 * 60 * 1000) t2).2.total_tokens_24h =
        some t2) := by
  have hcut : cutoff_ms now = now - 24 * 60 * 60 * 1000 := by
    norm_num [i64Min, i64Max] at h1 h2
    unfold cutoff_ms i64SaturatingSub
    rw [min_eq_right (by norm_num [i64Max]; omega),
      max_eq_right (by norm_num [i64Min]; omega)]
  refine ⟨?_, ?_, rfl, rfl, ?_⟩
  · simp only [record_app_server_usage, prune_points, List.mem_filter, hcut]
    constructor
    · exact List.mem_append_right _ (List.mem_singleton.mpr rfl)
    · simp only [decide_eq_true_eq]
      omega
  · intro p hp
    simp only [record_app_server_usage, prune_points, List.mem_filter, hcut,
      decide_eq_true_eq]
    constructor
    · rintro ⟨-, hle⟩
      omega
    · intro hge
      exact ⟨hp, by omega⟩
  · intro t1 t2
    constructor
    · simp [record_app_server_usage, prune_points, cutoff_ms,
        i64SaturatingSub, i64Min, i64Max, UsageStore.default]
    · simp [record_app_server_usage, prune_points, cutoff_ms,
        i64SaturatingSub, i64Min, i64Max, UsageStore.default, sum_points]

/-- C3 witness: recording a 5-token sample into the empty store keeps the
new point. -/
theorem record_app_server_usage_correct_witness :
    (⟨1000, 5⟩ : UsagePoint) ∈
      (record_app_server_usage ⟨[], none, none⟩ 1000 5).1.app_server_points :=
  (record_app_server_usage_correct ⟨[], none, none⟩ 1000 5
    (by norm_num [i64Min]) (by norm_num [i64Max])).1

/-- Only a strictly positive extracted delta is reported. -/
theorem extract_delta_pos (message : Json) (t : Int)
    (h : extract_app_server_token_delta message = some t) : 0 < t := by
  unfold extract_app_server_token_delta at h
  repeat' split at h
  all_goals simp_all

/-- recordUsage actions come only from the token-usage side effect, which
only fires on a successful extraction. -/
theorem recordUsage_in_side_effects (value : Json) (tokens : Int)
    (h : RouteAction.recordUsage tokens ∈ usage_side_effects value) :
    extract_app_server_token_delta value = some tokens := by
  unfold usage_side_effects at h
  rcases List.mem_append.mp h with h1 | h2
  · split at h1
    · split at h1
      · simp_all
      · simp_all
    · simp_all
  · split at h2
    · split at h2
      · split at h2 <;> simp_all
      · simp_all
    · simp_all

/-- The classification branch never records usage. -/
theorem recordUsage_not_in_classify (s : SessionSt) (value : Json)
    (tokens : Int) :
    RouteAction.recordUsage tokens ∉ (classify_value s value).2 := by
  unfold classify_value
  rcases hid : inbound_id value with _ | id
  · by_cases hm : has_method value = true <;> simp [hm]
  · by_cases hre : has_result_or_error value = true
    · simp only [hre, if_true]
      rcases hl : s.pending.lookup id with _ | slot
      · simp
      · cases slot <;> simp
    · by_cases hm : has_method value = true
      · simp [hre, hm]
      · simp only [hre, hm, if_false]
        rcases hl : s.pending.lookup id with _ | slot
        · simp
        · cases slot <;> simp

/-- C6: a token-usage notification whose extracted last-delta is missing
or non-positive adds nothing to the ledger: every extracted delta and
every recordUsage action is strictly positive, and processing the deltas
50, -10, 0, 30 yields exactly two Usage Points totaling 80 whose token
values are 50 and 30. -/
theorem token_deltas_additive_only :
    (∀ message t, extract_app_server_token_delta message = some t →
      0 < t) ∧
    (∀ s value tokens,
      RouteAction.recordUsage tokens ∈ (process_value s value).2 →
      0 < tokens) ∧
    (record_usage_deltas UsageStore.default 1000
      [50, -10, 0, 30]).app_server_points.length = 2 ∧
    sum_points ((record_usage_deltas UsageStore.default 1000
      [50, -10, 0, 30]).app_server_points) = 80 ∧
    ((record_usage_deltas UsageStore.default 1000
      [50, -10, 0, 30]).app_server_points.map (fun p => p.tokens)) =
      [50, 30] := by
  refine ⟨extract_delta_pos, ?_, rfl, rfl, rfl⟩
  intro s value tokens h
  simp only [process_value] at h
  rcases List.mem_append.mp h with h1 | h2
  · exact extract_delta_pos value tokens (recordUsage_in_side_effects value tokens h1)
  · exact absurd h2 (recordUsage_not_in_classify s value tokens)

/-- C6 witness: the delta 50 notification extracts 50, which is positive,
and the corresponding recordUsage action is positive. -/
theorem token_deltas_additive_only_witness :
    (0 : Int) < 50 :=
  token_deltas_additive_only.1 (token_usage_msg 50) 50 rfl

/-- C4: the reader classifies every parsed inbound message exactly by
field presence: with an id (a u64-valued id field) and a result or error
it fulfills the waiting Correlation Table entry and is dropped silently
when none exists; with an id and a method but no result or error it is
forwarded as a tagged event; with an id but neither method nor result or
error it falls back to the response match; with no id but a method it is
forwarded as a notification event. -/
theorem event_router_classification (s : SessionSt) (value : Json)
    (id : Nat) :
    (inbound_id value = some id → has_result_or_error value = true →
      ((s.pending.lookup id = some .waiting →
          classify_value s value =
            ({ s with pending := mark_slot s.pending id (.fulfilled value) },
             [RouteAction.fulfill id value])) ∧
       (s.pending.lookup id ≠ some .waiting →
          classify_value s value = (s, [RouteAction.dropStale id])))) ∧
    (inbound_id value = some id → has_result_or_error value = false →
      has_method value = true →
      classify_value s value = (s, [RouteAction.forwardEvent value])) ∧
    (inbound_id value = some id → has_result_or_error value = false →
      has_method value = false →
      ((s.pending.lookup id = some .waiting →
          classify_value s value =
            ({ s with pending := mark_slot s.pending id (.fulfilled value) },
             [RouteAction.fulfill id value])) ∧
       (s.pending.lookup id ≠ some .waiting →
          classify_value s value = (s, [RouteAction.dropStale id])))) ∧
    (inbound_id value = none → has_method value = true →
      classify_value s value = (s, [RouteAction.forwardEvent value])) := by
  have hshape : ∀ hre : has_result_or_error value = true,
      ∀ hid : inbound_id value = some id,
      ((s.pending.lookup id = some .waiting →
          classify_value s value =
            ({ s with pending := mark_slot s.pending id (.fulfilled value) },
             [RouteAction.fulfill id value])) ∧
       (s.pending.lookup id ≠ some .waiting →
          classify_value s value = (s, [RouteAction.dropStale id]))) := by
    intro hre hid
    unfold classify_value
    rw [hid]
    simp only [hre, if_true]
    rcases hx : s.pending.lookup id with _ | slot
    · exact ⟨fun h => by simp at h, fun _ => rfl⟩
    · cases slot
      · exact ⟨fun _ => rfl, fun h => absurd rfl h⟩
      · exact ⟨fun h => by simp at h, fun _ => rfl⟩
      · exact ⟨fun h => by simp at h, fun _ => rfl⟩
  refine ⟨fun hid hre => hshape hre hid, ?_, ?_, ?_⟩
  · intro hid hre hm
    unfold classify_value
    rw [hid]
    simp [hre, hm]
  · intro hid hre hm
    unfold classify_value
    rw [hid]
    simp only [hre, hm, Bool.false_eq_true, if_false]
    rcases hx : s.pending.lookup id with _ | slot
    · exact ⟨fun h => by simp at h, fun _ => rfl⟩
    · cases slot
      · exact ⟨fun _ => rfl, fun h => absurd rfl h⟩
      · exact ⟨fun h => by simp at h, fun _ => rfl⟩
      · exact ⟨fun h => by simp at h, fun _ => rfl⟩
  · intro hid hm
    unfold classify_value
    rw [hid]
    simp only [hm, if_true]

/-- C4 witness: a response with id 1 fulfills the waiting entry for id 1,
and a method-bearing id message is forwarded. -/
theorem event_router_classification_witness :
    classify_value ⟨2, [(1, SlotState.waiting)]⟩
        (Json.obj [("id", Json.num 1), ("result", Json.null)]) =
      (⟨2, [(1, SlotState.fulfilled
          (Json.obj [("id", Json.num 1), ("result", Json.null)]))]⟩,
       [RouteAction.fulfill 1
          (Json.obj [("id", Json.num 1), ("result", Json.null)])]) ∧
    classify_value ⟨2, [(1, SlotState.waiting)]⟩
        (Json.obj [("id", Json.num 7), ("method", Json.str "m")]) =
      (⟨2, [(1, SlotState.waiting)]⟩,
       [RouteAction.forwardEvent
          (Json.obj [("id", Json.num 7), ("method", Json.str "m")])]) := by
  constructor
  · exact ((event_router_classification ⟨2, [(1, SlotState.waiting)]⟩
      (Json.obj [("id", Json.num 1), ("result", Json.null)]) 1).1
      rfl rfl).1 rfl
  · exact (event_router_classification ⟨2, [(1, SlotState.waiting)]⟩
      (Json.obj [("id", Json.num 7), ("method", Json.str "m")]) 7).2.1
      rfl rfl rfl

/-- Rewrite for request_outcome at a fulfilled slot. -/
theorem request_outcome_fulfilled (s : SessionSt) (id : Nat) (v : Json)
    (h : s.pending.lookup id = some (.fulfilled v)) :
    request_outcome s id = some (Except.ok v) := by
  unfold request_outcome
  rw [h]

/-- Rewrite for route_response when the entry for id is waiting. -/
theorem route_response_waiting (s : SessionSt) (id : Nat) (v : Json)
    (h : s.pending.lookup id = some .waiting) :
    route_response s id v =
      { s with pending := mark_slot s.pending id (.fulfilled v) } := by
  unfold route_response
  rw [h]

/-- Rewrite for route_response when no waiting entry exists for id: the
inbound response is dropped silently. -/
theorem route_response_stale (s : SessionSt) (id : Nat) (v : Json)
    (h : s.pending.lookup id ≠ some .waiting) :
    route_response s id v = s := by
  unfold route_response
  rcases hx : s.pending.lookup id with _ | sl
  · rfl
  · cases sl
    · exact absurd hx h
    · rfl
    · rfl

/-- Marking two different ids commutes. -/
theorem mark_slot_comm (pending : List (Nat × SlotState)) (id1 id2 : Nat)
    (st1 st2 : SlotState) (h : id1 ≠ id2) :
    mark_slot (mark_slot pending id1 st1) id2 st2 =
      mark_slot (mark_slot pending id2 st2) id1 st1 := by
  unfold mark_slot
  rw [List.map_map, List.map_map]
  apply List.map_congr_left
  intro p _
  by_cases h1 : p.1 = id1 <;> by_cases h2 : p.1 = id2
  · exact absurd (h1.symm.trans h2) h
  · simp [Function.comp, h1, h2, h, Ne.symm h]
  · simp [Function.comp, h1, h2, h, Ne.symm h]
  · simp [Function.comp, h1, h2, h, Ne.symm h]

/-- Ids issued by a session are the consecutive naturals from next_id. -/
theorem issue_many_ids (n : Nat) : ∀ s : SessionSt,
    (issue_many s n).2 = List.range' s.next_id n := by
  induction n with
  | zero => intro s; rfl
  | succ n ih =>
      intro s
      simp only [issue_many, send_request_issue]
      rw [ih]
      rw [List.range'_succ]

/-- C2: the ids allocated by a sequence of send_request calls on one
session are 1, 2, ..., n in issuance order (strictly increasing, starting
at 1), and each inbound response is delivered to exactly the pending
request whose id it carries: routing a response fulfills that request
with the response value, leaves every other correlation entry untouched,
and routing responses for two different ids commutes, so delivery does
not depend on arrival order. -/
theorem request_ids_and_response_matching :
    (∀ n, (issue_many initial_session n).2 = List.range' 1 n) ∧
    (∀ n, List.Pairwise (· < ·) (issue_many initial_session n).2) ∧
    (∀ (s : SessionSt) (id : Nat) (v : Json),
      s.pending.lookup id = some .waiting →
      request_outcome (route_response s id v) id = some (Except.ok v)) ∧
    (∀ (s : SessionSt) (id : Nat) (v : Json) (j : Nat), j ≠ id →
      (route_response s id v).pending.lookup j = s.pending.lookup j) ∧
    (∀ (s : SessionSt) (id1 id2 : Nat) (v1 v2 : Json), id1 ≠ id2 →
      route_response (route_response s id1 v1) id2 v2 =
        route_response (route_response s id2 v2) id1 v1) := by
  refine ⟨fun n => issue_many_ids n initial_session, ?_, ?_, ?_, ?_⟩
  · intro n
    rw [issue_many_ids n initial_session]
    exact List.pairwise_lt_range' 1 n
  · intro s id v h
    rw [route_response_waiting s id v h]
    exact request_outcome_fulfilled _ id v
      (lookup_mark_slot_self s.pending id _ (by rw [h]; rfl))
  · intro s id v j hj
    by_cases h : s.pending.lookup id = some .waiting
    · rw [route_response_waiting s id v h]
      exact lookup_mark_slot_ne s.pending id j _ hj
    · rw [route_response_stale s id v h]
  · intro s id1 id2 v1 v2 hne
    by_cases h1 : s.pending.lookup id1 = some .waiting <;>
      by_cases h2 : s.pending.lookup id2 = some .waiting
    · have hA : (mark_slot s.pending id1
          (SlotState.fulfilled v1)).lookup id2 = some .waiting := by
        rw [lookup_mark_slot_ne _ _ _ _ (Ne.symm hne)]
        exact h2
      have hB : (mark_slot s.pending id2
          (SlotState.fulfilled v2)).lookup id1 = some .waiting := by
        rw [lookup_mark_slot_ne _ _ _ _ hne]
        exact h1
      rw [route_response_waiting s id1 v1 h1,
        route_response_waiting _ id2 v2 hA,
        route_response_waiting s id2 v2 h2,
        route_response_waiting _ id1 v1 hB]
      simp only [mark_slot_comm s.pending id1 id2 _ _ hne]
    · have hA : (mark_slot s.pending id1
          (SlotState.fulfilled v1)).lookup id2 ≠ some .waiting := by
        rw [lookup_mark_slot_ne _ _ _ _ (Ne.symm hne)]
        exact h2
      rw [route_response_waiting s id1 v1 h1,
        route_response_stale _ id2 v2 hA,
        route_response_stale s id2 v2 h2,
        route_response_waiting s id1 v1 h1]
    · have hB : (mark_slot s.pending id2
          (SlotState.fulfilled v2)).lookup id1 ≠ some .waiting := by
        rw [lookup_mark_slot_ne _ _ _ _ hne]
        exact h1
      rw [route_response_stale s id1 v1 h1,
        route_response_waiting s id2 v2 h2,
        route_response_stale _ id1 v1 hB]
    · rw [route_response_stale s id1 v1 h1,
        route_response_stale s id2 v2 h2,
        route_response_stale s id1 v1 h1]

/-- C2 witness: issuing three requests on a fresh session allocates ids
1, 2, 3, and routing a response for id 2 resolves exactly that request. -/
theorem request_ids_and_response_matching_witness :
    (issue_many initial_session 3).2 = [1, 2, 3] ∧
    request_outcome
        (route_response ⟨3, [(1, .waiting), (2, .waiting)]⟩ 2 Json.null) 2 =
      some (Except.ok Json.null) ∧
    (route_response ⟨3, [(1, .waiting), (2, .waiting)]⟩ 2
        Json.null).pending.lookup 1 = some .waiting := by
  refine ⟨?_, ?_, ?_⟩
  · rw [request_ids_and_response_matching.1 3]
    rfl
  · exact request_ids_and_response_matching.2.2.1
      ⟨3, [(1, .waiting), (2, .waiting)]⟩ 2 Json.null rfl
  · rw [request_ids_and_response_matching.2.2.2.1
      ⟨3, [(1, .waiting), (2, .waiting)]⟩ 2 Json.null 1 (by decide)]
    rfl

/-- Under the poller invariant the result of a restart is determined: the
old task is gone and either exactly the new task runs (enabled) or none
does (disabled). -/
theorem restart_usage_polling_inv_aux (st : PollerCtx)
    (settings : PollSettings) (h : poller_inv st) :
    restart_usage_polling st settings =
      if settings.usage_polling_enabled then
        ⟨[st.fresh], some st.fresh, st.fresh + 1⟩
      else ⟨[], none, st.fresh⟩ := by
  obtain ⟨hL, hF⟩ := h
  unfold restart_usage_polling
  rcases hh : st.handle with _ | hdl
  · rw [hh] at hL
    simp only [Option.toList] at hL
    rw [hL]
    by_cases he : settings.usage_polling_enabled = true <;> simp [he]
  · rw [hh] at hL
    rw [hL]
    by_cases he : settings.usage_polling_enabled = true <;> simp [he]

/-- C8: every restart of the usage poller first aborts the stored periodic
task, so under the single-instance invariant at most one poller task is
ever live; when polling is enabled a single new task is spawned and
stored, when disabled none; the configured interval is clamped to 1..120
minutes; and the spawned task performs one refresh immediately and then
exactly one more per elapsed interval tick. -/
theorem usage_poller_restart_correct :
    (∀ n : Int, 1 ≤ clamp_interval_minutes n ∧
      clamp_interval_minutes n ≤ 120) ∧
    (∀ (st : PollerCtx) (settings : PollSettings),
      poller_inv st → poller_inv (restart_usage_polling st settings)) ∧
    (∀ (st : PollerCtx) (settings : PollSettings),
      poller_inv st →
      (restart_usage_polling st settings).live_tasks.length ≤ 1) ∧
    (∀ (st : PollerCtx) (settings : PollSettings) (h : Nat),
      poller_inv st → st.handle = some h →
      h ∉ (restart_usage_polling st settings).live_tasks) ∧
    (∀ (st : PollerCtx) (settings : PollSettings),
      settings.usage_polling_enabled = true →
      (restart_usage_polling st settings).handle = some st.fresh ∧
      st.fresh ∈ (restart_usage_polling st settings).live_tasks) ∧
    (∀ (st : PollerCtx) (settings : PollSettings),
      settings.usage_polling_enabled = false →
      (restart_usage_polling st settings).handle = none) ∧
    poller_refreshes_after 0 = 1 ∧
    (∀ t, poller_refreshes_after (t + 1) = poller_refreshes_after t + 1) := by
  refine ⟨?_, ?_, ?_, ?_, ?_, ?_, rfl, fun t => rfl⟩
  · intro n
    unfold clamp_interval_minutes
    exact ⟨le_min (le_max_right n 1) (by norm_num), min_le_right _ _⟩
  · intro st settings h
    rw [restart_usage_polling_inv_aux st settings h]
    by_cases he : settings.usage_polling_enabled = true <;>
      simp [he, poller_inv]
  · intro st settings h
    rw [restart_usage_polling_inv_aux st settings h]
    by_cases he : settings.usage_polling_enabled = true <;> simp [he]
  · intro st settings h hinv hh
    have hlt : h < st.fresh := by
      obtain ⟨hL, hF⟩ := hinv
      exact hF h (by rw [hL, hh]; simp)
    rw [restart_usage_polling_inv_aux st settings hinv]
    by_cases he : settings.usage_polling_enabled = true <;> simp [he]
    omega
  · intro st settings he
    unfold restart_usage_polling
    rcases hh : st.handle with _ | hdl <;> simp [he]
  · intro st settings he
    unfold restart_usage_polling
    rcases hh : st.handle with _ | hdl <;> simp [he]

/-- C8 witness: restarting over a live task 0 leaves at most one live
task, and an out-of-range interval of 999 minutes clamps into 1..120. -/
theorem usage_poller_restart_correct_witness :
    (restart_usage_polling ⟨[0], some 0, 1⟩
      ⟨true, 999⟩).live_tasks.length ≤ 1 ∧
    1 ≤ clamp_interval_minutes 999 ∧ clamp_interval_minutes 999 ≤ 120 :=
  ⟨usage_poller_restart_correct.2.2.1 ⟨[0], some 0, 1⟩ ⟨true, 999⟩
      ⟨rfl, by decide⟩,
    (usage_poller_restart_correct.1 999).1,
    (usage_poller_restart_correct.1 999).2⟩
